import Mathlib

/-!
Shallow embedding of the UDPT tracker core (UDP request pipeline, SQLite
peer store, maintenance pass, HTTP control interface) for checking the
natural-language specification against the code.

Source files modelled: src/tools.c, src/db/driver_sqlite.cpp,
src/udpTracker.cpp, src/WebApp.cpp. Machine integers are modelled as Nat
or Int with explicit reductions mod 2^w where the C code can overflow or
truncate; 20-byte hashes and other byte buffers are lists of byte values
(Nat below 256). Each definition carries a comment naming the C function
it embeds.
-/

namespace UDPT

/-- A byte buffer: each element is a byte value (0..255). -/
abbrev Bytes := List Nat

/-- The table `static const char hexadecimal[] = "0123456789abcdef"` shared
by tools.c and driver_sqlite.cpp, as ASCII codes. -/
def hexadecimal : Bytes := "0123456789abcdef".data.map Char.toNat

/-- tools.c `hash_to_str` (lines 54-63), byte-for-byte identical to
driver_sqlite.cpp `_to_hex_str` (lines 39-49) and to the `to_hex_str`
routine declared in tools.h: each input byte b becomes the two ASCII
codes `hexadecimal[b / 16]`, `hexadecimal[b % 16]`. The C version writes a
trailing NUL at index 40, which we drop; callers always pass a 20-byte
hash producing 40 hex characters. -/
def hash_to_str : Bytes → Bytes
  | [] => []
  | b :: rest => hexadecimal.getD (b / 16) 0 :: hexadecimal.getD (b % 16) 0 :: hash_to_str rest

/-- Groups a byte list into consecutive pairs, mirroring the C loops that
read `data[2*i]` and `data[2*i + 1]` for i = 0..19. -/
def pairUp : Bytes → List (Nat × Nat)
  | a :: b :: rest => (a, b) :: pairUp rest
  | _ => []

/-- tools.c `hex_from_char` (lines 65-78): decode one ASCII hex digit,
-1 on anything else. -/
def hex_from_char (c : Nat) : Int :=
  if 65 ≤ c ∧ c ≤ 70 then 10 + ((c : Int) - 65)
  else if 97 ≤ c ∧ c ≤ 102 then 10 + ((c : Int) - 97)
  else if 48 ≤ c ∧ c ≤ 57 then (c : Int) - 48
  else -1

/-- tools.c `str_to_hash` (lines 80-93). For each of the 20 byte positions
the code computes `hash[i] = ((a & 0xff) << 8) | (b & 0xff)` and stores it
into a uint8_t, which keeps only the value modulo 256; `none` models the
-1 return on a non-hex character. -/
def str_to_hash (data : Bytes) : Option Bytes :=
  (pairUp (data.take 40)).mapM fun ab =>
    let a := hex_from_char ab.1
    let b := hex_from_char ab.2
    if a = -1 ∨ b = -1 then none
    else some ((((a.toNat &&& 255) <<< 8) ||| (b.toNat &&& 255)) % 256)

/-- One byte of driver_sqlite.cpp `_hash_to_bin` (lines 51-68). The C body
runs, for each output byte (a uint8_t cell, so every store is mod 256):
`data[i] = (a >= '0' && a <= 'f') ? (a - '0') : (a - 'f' + 10);`
`data[i] <<= 4;`
`data[i] = (b >= '0' && b <= 'f') ? (b - '0') : (b - 'f' + 10);`
The last statement overwrites the shifted value instead of OR-ing it in,
so only the second hex character survives, and the `- '0'` branch is taken
for letters a..f as well (their codes lie between the codes of 0 and f).
The shadowed lets mirror the three statements. -/
def hash_to_bin_byte (a b : Nat) : Nat :=
  let d : Int := (if 48 ≤ a ∧ a ≤ 102 then (a : Int) - 48 else (a : Int) - 102 + 10).emod 256
  let d : Int := (d * 16).emod 256
  let d : Int := (if 48 ≤ b ∧ b ≤ 102 then (b : Int) - 48 else (b : Int) - 102 + 10).emod 256
  d.toNat

/-- driver_sqlite.cpp `_hash_to_bin` (lines 51-68) over the 40 ASCII codes
of a hex string (the initial `data[i] = 0` store in the C body is dead). -/
def hash_to_bin (s : Bytes) : Bytes :=
  (pairUp (s.take 40)).map fun ab => hash_to_bin_byte ab.1 ab.2

/-- driver_sqlite.cpp `_genCiD` (lines 410-417), with `now` standing for
`time(NULL)`. The C body is
`x = (time(NULL) / 3600) * port;` -- dead store, overwritten next line
`x = (ip ^ port);`               -- uint32 result zero-extended to x
`x <<= 16;`
`x |= (~port);`
In the last statement `port` (uint16_t) is promoted to int, so `~port` is
the negative int -(port+1); converting it to uint64_t for the `|=`
sign-extends to 2^64 - 1 - port, whose upper 48 bits are all ones. The
shadowed lets mirror the four statements. -/
def genCiD (now : Int) (ip port : Nat) : Nat :=
  let x : Nat := ((now.tdiv 3600 * (port : Int)).emod (2 ^ 64)).toNat
  let x : Nat := ip ^^^ port
  let x : Nat := (x <<< 16) % 2 ^ 64
  let x : Nat := x ||| (2 ^ 64 - 1 - port)
  x

/-- driver_sqlite.cpp `SQLite3Driver::verifyConnectionId` (lines 424-429):
true iff the offered id equals `_genCiD(ip, port)` recomputed now. -/
def verifyConnectionId (cId : Nat) (ip port : Nat) (now : Int) : Bool :=
  cId == genCiD now ip port

/-! ## The SQLite store

The driver keeps three kinds of tables (doSetup, addTorrent):
`stats(info_hash blob(20) UNIQUE, completed, leechers, seeders, last_mod,
all INTEGER DEFAULT 0)`, `torrents(info_hash blob(20) UNIQUE, created)`,
and one peer table per swarm named `t<40 hex chars>` with columns
`(peer_id blob(20), ip blob(4), port blob(2), uploaded blob(8),
downloaded blob(8), left blob(8), last_seen INT DEFAULT 0,
UNIQUE (ip,port) ON CONFLICT REPLACE)`. We model each table as a list of
rows in rowid (insertion) order: a REPLACE that hits the UNIQUE key
deletes the old row and appends the new one at the end, which is exactly
the rowid behaviour the SELECTs observe. The fixed-width blobs ip, port,
uploaded, downloaded and left are kept as their integer values (two blobs
of equal declared width are equal iff the values are, on the one build
platform, x86-64 little-endian); `left64le` below recovers the stored
bytes where the SQL compares the blob with numbers. The unused `created`
column of `torrents` is omitted. -/

/-- database.hpp `enum TrackerEvents` (EVENT_UNSPEC = 0, EVENT_COMPLETE
= 1, EVENT_START = 2, EVENT_STOP = 3). -/
inductive TrackerEvents where
  | EVENT_UNSPEC
  | EVENT_COMPLETE
  | EVENT_START
  | EVENT_STOP
deriving DecidableEq, Repr

/-- One row of a per-swarm peer table. -/
structure PeerRow where
  peer_id : Bytes
  ip : Nat
  port : Nat
  uploaded : Int
  downloaded : Int
  left : Int
  last_seen : Int
deriving DecidableEq, Repr

/-- One row of the `stats` table (minus its info_hash key); the `:=`
defaults are the schema column defaults applied by REPLACE/INSERT when a
column is not named. -/
structure StatsRow where
  completed : Int := 0
  leechers : Int := 0
  seeders : Int := 0
  last_mod : Int := 0
deriving DecidableEq, Repr

/-- The whole SQLite database: the `torrents` keys, the `stats` rows keyed
by their 20-byte info_hash blob, and the peer tables keyed by table name
(ASCII bytes), each list in rowid / sqlite_master order. -/
structure DB where
  torrents : List Bytes
  stats : List (Bytes × StatsRow)
  tables : List (Bytes × List PeerRow)
deriving DecidableEq, Repr

/-- The empty database right after `doSetup`. -/
def DB.empty : DB := ⟨[], [], []⟩

/-- REPLACE INTO a table with a UNIQUE key: any row with the same key is
deleted and the new row is inserted with a fresh (largest) rowid. -/
def replaceRow {β : Type} (rows : List (Bytes × β)) (k : Bytes) (v : β) :
    List (Bytes × β) :=
  rows.filter (fun r => r.1 != k) ++ [(k, v)]

/-- Update the row list of the named peer table in place (a DML statement
does not move the table inside sqlite_master). -/
def setTableRows : List (Bytes × List PeerRow) → Bytes →
    (List PeerRow → List PeerRow) → List (Bytes × List PeerRow)
  | [], _, _ => []
  | t :: ts, k, f =>
    (if t.1 == k then (t.1, f t.2) else t) :: setTableRows ts k f

/-- The name of a swarm's peer table: the letter t followed by the 40-char
hex of the info_hash (driver_sqlite.cpp builds it as `"t" + hash`). -/
def tableName (info_hash : Bytes) : Bytes := 116 :: hash_to_str info_hash

/-- driver_sqlite.cpp `SQLite3Driver::addTorrent` (lines 230-269):
`INSERT INTO torrents (info_hash,created) VALUES (?,?)` — the UNIQUE
constraint makes the insert fail, and the error is ignored, when the hash
is already present — then `CREATE TABLE IF NOT EXISTS 't<hex>' (...)`. -/
def addTorrent (db : DB) (info_hash : Bytes) : DB :=
  let torrents := if db.torrents.contains info_hash then db.torrents
                  else db.torrents ++ [info_hash]
  let tbl := tableName info_hash
  let tables := if (db.tables.map Prod.fst).contains tbl then db.tables
                else db.tables ++ [(tbl, [])]
  { db with torrents := torrents, tables := tables }

/-- driver_sqlite.cpp `SQLite3Driver::updatePeer` (lines 190-228), with
`now` standing for `time(NULL)`. After addTorrent it runs
`REPLACE INTO 't<hex>' (peer_id,ip,port,uploaded,downloaded,left,
last_seen) VALUES (...)`, an upsert keyed by the UNIQUE (ip,port)
constraint, and then `REPLACE INTO stats (info_hash,last_mod) VALUES`
binding as key the char buffer `hash` — that is, the first 20 ASCII bytes
of the 40-char hex string, not the 20 binary hash bytes — and writing a
fresh row whose unnamed columns completed, leechers, seeders take their
DEFAULT 0. The `event` argument is never read by the body. -/
def updatePeer (db : DB) (peer_id info_hash : Bytes) (ip port : Nat)
    (downloaded left uploaded : Int) (event : TrackerEvents) (now : Int) : DB :=
  let hash := hash_to_str info_hash
  let db := addTorrent db info_hash
  let row : PeerRow :=
    { peer_id := peer_id, ip := ip, port := port, uploaded := uploaded,
      downloaded := downloaded, left := left, last_seen := now }
  let db := { db with
    tables := setTableRows db.tables (tableName info_hash) fun rows =>
      rows.filter (fun (p : PeerRow) => !(p.ip == ip && p.port == port)) ++ [row] }
  { db with stats := replaceRow db.stats (hash.take 20) { last_mod := now } }

/-- driver_sqlite.cpp `SQLite3Driver::removePeer` (lines 386-408). The
statement is `DELETE FROM 't<hex>' WHERE ip=? AND port=? AND peer_id=?`,
but the three sqlite3_bind_blob calls pass parameter indices 0, 1 and 2
while SQLite parameters are numbered from 1: the bind at index 0 fails
with SQLITE_RANGE (ignored), parameter 1 (ip) receives the 2-byte port
blob, parameter 2 (port) the 20-byte peer_id blob, and parameter 3
(peer_id) stays NULL. `peer_id = NULL` is never true in SQL, so the
DELETE matches no row and the database is unchanged. -/
def removePeer (db : DB) (peer_id info_hash : Bytes) (ip port : Nat) : DB :=
  db

/-- driver_sqlite.cpp `SQLite3Driver::removeTorrent` (lines 356-384):
delete the hash from `torrents`, delete its `stats` row (here the key
really is the binary hash), drop the peer table. -/
def removeTorrent (db : DB) (info_hash : Bytes) : DB :=
  { torrents := db.torrents.filter (fun h => h != info_hash),
    stats := db.stats.filter (fun r => r.1 != info_hash),
    tables := db.tables.filter (fun t => t.1 != tableName info_hash) }

/-- driver_sqlite.cpp `SQLite3Driver::isTorrentAllowed` (lines 271-284):
always true in dynamic mode, otherwise `SELECT COUNT(*) FROM torrents
WHERE info_hash=?` compared with 1. -/
def isTorrentAllowed (db : DB) (isDynamic : Bool) (info_hash : Bytes) : Bool :=
  if isDynamic then true
  else db.torrents.count info_hash == 1

/-- The result record filled by getTorrentInfo (database.hpp
TorrentEntry, minus the input hash). -/
structure TorrentEntry where
  seeders : Int
  leechers : Int
  completed : Int
deriving DecidableEq, Repr

/-- driver_sqlite.cpp `SQLite3Driver::getTorrentInfo` (lines 118-145):
zero-fill the entry, then `SELECT seeders,leechers,completed FROM stats
WHERE info_hash=?`; the Bool is `gotInfo`, false when no row matched. -/
def getTorrentInfo (db : DB) (info_hash : Bytes) : Bool × TorrentEntry :=
  match db.stats.lookup info_hash with
  | some r => (true, { seeders := r.seeders, leechers := r.leechers,
                       completed := r.completed })
  | none => (false, { seeders := 0, leechers := 0, completed := 0 })

/-- driver_sqlite.cpp `SQLite3Driver::getPeers` (lines 147-188):
`SELECT ip,port FROM 't<hex>' LIMIT ?` — the first max_count rows in
rowid order; when the swarm has no table the prepare/step fail and the
loop ends with zero rows collected. -/
def getPeers (db : DB) (info_hash : Bytes) (max_count : Nat) :
    List (Nat × Nat) :=
  match db.tables.lookup (tableName info_hash) with
  | none => []
  | some rows => (rows.take max_count).map fun p => (p.ip, p.port)

/-! ## The maintenance pass (SQLite3Driver::cleanup)

cleanup (driver_sqlite.cpp lines 286-354) walks every table whose name
matches `LIKE 't________________________________________'` (the letter t
followed by exactly 40 characters), deletes its rows with
`last_seen < time(NULL) - 7200`, recounts the survivors with
`SELECT left,COUNT(*) FROM <tbl> GROUP BY left==0`, and writes
`REPLACE INTO stats (info_hash,seeders,leechers,last_mod)` with the key
`_hash_to_bin(tblN + 1)`.

Two SQLite facts decide what the recount returns. First, the `left`
column holds 8-byte BLOB values (bound with sqlite3_bind_blob), and in
SQLite a comparison between a BLOB and the INTEGER 0 is decided by the
storage-class order, where every BLOB is greater than every number — so
`left==0` evaluates to 0 (false) on every row, and the GROUP BY puts all
surviving rows into one single group. Second, the bare column `left` of
that aggregate query takes its value from one row of the group (SQLite
takes the row scanned last), and `sqlite3_column_int` converts that BLOB
by reading its bytes as text and parsing a leading integer prefix,
clipping to a 32-bit int. So the loop body
`if (column_int(0) == 0) seeders = count; else leechers = count;`
assigns the full survivor count to exactly one of the two counters and
leaves the other one 0. -/

/-- The 8 bytes that sqlite3_bind_blob(&left, 8) stores for the int64
value, little-endian two's complement (the build targets x86-64). -/
def left64le (v : Int) : Bytes :=
  (List.range 8).map fun i => ((v.emod (2 ^ 64)).toNat >>> (8 * i)) % 256

/-- Decimal value of a digit list, most significant first. -/
def natOfDigits (ds : List Nat) : Nat :=
  ds.foldl (fun acc d => acc * 10 + d) 0

/-- SQLite text-to-integer conversion (sqlite3Atoi64): skip leading
whitespace, optional sign, then the longest prefix of decimal digits, 0
when there is none; the result saturates at the int64 range ends. -/
def sqliteTextToInt (bs : Bytes) : Int :=
  let t := bs.dropWhile fun c => c == 32 || (9 ≤ c && c ≤ 13)
  let (sign, t) : Int × Bytes :=
    match t with
    | 45 :: rest => (-1, rest)
    | 43 :: rest => (1, rest)
    | _ => (1, t)
  let n : Int := natOfDigits ((t.takeWhile fun c => 48 ≤ c && c ≤ 57).map (· - 48))
  let v := sign * n
  if v > 2 ^ 63 - 1 then 2 ^ 63 - 1 else if v < -(2 ^ 63) then -(2 ^ 63) else v

/-- sqlite3_column_int on a BLOB column value: text-to-integer on the
blob bytes, returned as a C int (wrapped into 32 bits). -/
def column_int_blob (bs : Bytes) : Int :=
  ((sqliteTextToInt bs + 2 ^ 31).emod (2 ^ 32)) - 2 ^ 31

/-- The per-table body of cleanup: DELETE the expired rows, then the
single-group recount described above. Returns (survivors, seeders,
leechers); an emptied table yields no group row at all, leaving both
counters at their initial 0. -/
def cleanupTable (now : Int) (rows : List PeerRow) :
    List PeerRow × Int × Int :=
  let exp := now - 7200
  let surv := rows.filter fun p => !(p.last_seen < exp : Bool)
  match surv.getLast? with
  | none => (surv, 0, 0)
  | some rep =>
    if column_int_blob (left64le rep.left) == 0 then (surv, surv.length, 0)
    else (surv, 0, surv.length)

/-- One iteration of the cleanup loop over a row of the sqlite_master
query: tables whose name matches the LIKE pattern (the letter t followed
by exactly 40 characters) get their expired rows deleted and their stats
row REPLACEd under the key `_hash_to_bin` recovers from the table name
(the completed column is not named in the REPLACE and resets to its
DEFAULT 0); any other table name is skipped by the LIKE filter. -/
def cleanupStep (now : Int) (acc : DB) (t : Bytes × List PeerRow) : DB :=
  if t.1.length = 41 ∧ t.1.headI = 116 then
    let r := cleanupTable now t.2
    { acc with
      tables := setTableRows acc.tables t.1 (fun _ => r.1),
      stats := replaceRow acc.stats (hash_to_bin (t.1.drop 1))
        { completed := 0, seeders := r.2.1, leechers := r.2.2,
          last_mod := now } }
  else acc

/-- driver_sqlite.cpp `SQLite3Driver::cleanup` (lines 286-354). The
iteration list is the sqlite_master snapshot taken before the loop. -/
def cleanup (db : DB) (now : Int) : DB :=
  db.tables.foldl (cleanupStep now) db

/-! ## The UDP request handlers (udpTracker.cpp)

The handlers are modelled one datagram at a time as pure functions from
the tracker configuration, the database and the request to the list of
datagrams sent back plus the new database. Multi-byte request fields are
carried as their host-order values after the m_hton conversions the
handler applies (lines 211-217); the 64-bit connection id is carried as
the raw value the C code loads from the packet, since mint and verify
both use it unswapped. -/

/-- The configuration fields of UDPTracker read by the handlers. -/
structure Config where
  allowRemotes : Bool
  isDynamic : Bool
  announceInterval : Nat
deriving DecidableEq, Repr

/-- The 98-byte announce request after the byte-order conversions of
handleAnnounce; num_want is a signed 32-bit value. -/
structure AnnounceRequest where
  connection_id : Nat
  transaction_id : Nat
  info_hash : Bytes
  peer_id : Bytes
  downloaded : Int
  left : Int
  uploaded : Int
  event : Nat
  ip_address : Nat
  num_want : Int
  port : Nat
deriving DecidableEq, Repr

/-- A datagram the tracker sends back: an error frame (sendError, lines
143-170), a 20 + 6q byte announce response (lines 264-294) or a scrape
response whose sentLen is the byte count handed to sendto. -/
inductive Sent where
  | errorResp (transaction_id : Nat) (msg : String)
  | announceResp (transaction_id interval : Nat) (leechers seeders : Int)
      (peers : List (Nat × Nat)) (sentLen : Nat)
  | scrapeResp (transaction_id : Nat) (triples : List (Int × Int × Int))
      (sentLen : Nat)
deriving DecidableEq, Repr

/-- udpTracker.cpp `UDPTracker::handleAnnounce` (lines 191-307), with
`now` for `time(NULL)` and (remoteIp, remotePort) the datagram source in
host order. The steps, in source order: verify the connection id and
return silently on failure; reject a non-zero client-supplied IP when
allow_remotes is off; reject a disallowed info_hash; cap the peer count
at min(30, num_want) when num_want >= 1; zero it on EVENT_STOP; load the
peers; read seeders/leechers with getTorrentInfo and send the response;
only after sendto call updatePeer with the source IP (or the non-zero
client-supplied one). The response is built from the database state
before the update. -/
def handleAnnounce (cfg : Config) (db : DB) (remoteIp remotePort : Nat)
    (req : AnnounceRequest) (now : Int) : List Sent × DB :=
  if verifyConnectionId req.connection_id remoteIp remotePort now = false then
    ([], db)
  else if cfg.allowRemotes = false ∧ req.ip_address ≠ 0 then
    ([Sent.errorResp req.transaction_id
        "Tracker doesn't allow remote IP's; Request ignored."], db)
  else if isTorrentAllowed db cfg.isDynamic req.info_hash = false then
    ([Sent.errorResp req.transaction_id "info_hash not registered."], db)
  else
    let q : Int := 30
    let q : Int := if req.num_want ≥ 1 then min q req.num_want else q
    let event : TrackerEvents :=
      match req.event with
      | 1 => TrackerEvents.EVENT_COMPLETE
      | 2 => TrackerEvents.EVENT_START
      | 3 => TrackerEvents.EVENT_STOP
      | _ => TrackerEvents.EVENT_UNSPEC
    let q : Int := if event = TrackerEvents.EVENT_STOP then 0 else q
    let peers := if q > 0 then getPeers db req.info_hash q.toNat else []
    let bSize := 20 + 6 * peers.length
    let t := getTorrentInfo db req.info_hash
    let resp := Sent.announceResp req.transaction_id cfg.announceInterval
      t.2.leechers t.2.seeders peers bSize
    let ip := if req.ip_address = 0 then remoteIp else req.ip_address
    let db2 := updatePeer db req.peer_id req.info_hash ip req.port
      req.downloaded req.left req.uploaded event now
    ([resp], db2)

/-- Value of a little-endian byte run, as loaded by the C struct reads
(connection_id and transaction_id of ScrapeRequest are used unswapped,
so their numeric value is the little-endian reading on x86-64). -/
def leRead (bs : Bytes) : Nat :=
  bs.foldr (fun b acc => acc * 256 + b) 0

/-- The i-th 20-byte info_hash of a scrape packet: handleScrape copies
`data[j + i*20 + 16]` for j = 0..19. -/
def scrapeHashes (data : Bytes) (c : Nat) : List Bytes :=
  (List.range c).map fun i => (data.drop (16 + 20 * i)).take 20

/-- The scrape loop body (lines 342-366): one (seeders, completed,
leechers) triple per hash written at buffer offsets 8+12i, 12+12i,
16+12i; `none` when some getTorrentInfo returns false, which makes the
handler answer with an error frame instead and abandon the loop. -/
def scrapeTriples (db : DB) (hashes : List Bytes) :
    Option (List (Int × Int × Int)) :=
  hashes.mapM fun h =>
    let r := getTorrentInfo db h
    if r.1 then some (r.2.seeders, r.2.completed, r.2.leechers) else none

/-- udpTracker.cpp `UDPTracker::handleScrape` (lines 309-372) over the
raw datagram bytes. In source order: length validation (`v = len - 16`
below 0 or not a multiple of 20 draws a Bad scrape request error);
connection-id verification with silent drop on failure; the triple loop,
aborted by an error frame at the first unknown hash; finally
`sendto(..., buffer, sizeof(buffer), ...)` which always hands the whole
1024-byte buffer to sendto, whatever the number of hashes. -/
def handleScrape (db : DB) (remoteIp remotePort : Nat) (data : Bytes)
    (now : Int) : List Sent :=
  let len : Int := data.length
  let v : Int := len - 16
  let tid := leRead ((data.drop 12).take 4)
  if v < 0 ∨ v.emod 20 ≠ 0 then
    [Sent.errorResp tid "Bad scrape request."]
  else if verifyConnectionId (leRead (data.take 8)) remoteIp remotePort now
      = false then
    []
  else
    let c := (v.tdiv 20).toNat
    match scrapeTriples db (scrapeHashes data c) with
    | none =>
      [Sent.errorResp tid "Scrape Failed: couldn't retrieve torrent data"]
    | some triples => [Sent.scrapeResp tid triples 1024]

/-! ## The HTTP control interface (WebApp.cpp) -/

/-- Position of the first occurrence of c at or after index i, mirroring
std::string::find(c, i); none models npos. -/
def findFrom (cs : List Char) (c : Char) (i : Nat) : Option Nat :=
  match (cs.drop i).findIdx? (· == c) with
  | some j => some (i + j)
  | none => none

/-- The loop of WebApp.cpp `WebApp::parseQueryParameters` (lines
225-255): from key_begin, find the next =; break when there is none;
the value runs to the next & or to the end; continue past it. The fuel
argument only bounds the recursion; key_begin grows by at least 2 per
round, so length + 1 rounds always suffice. -/
def parseQueryParametersGo (cs : List Char) : Nat → Nat → List (String × String)
  | _, 0 => []
  | key_begin, fuel + 1 =>
    if key_begin ≤ cs.length then
      match findFrom cs '=' key_begin with
      | none => []
      | some key_end =>
        let value_begin := key_end + 1
        let value_end := (findFrom cs '&' value_begin).getD cs.length
        (String.mk ((cs.drop key_begin).take (key_end - key_begin)),
          String.mk ((cs.drop value_begin).take (value_end - value_begin)))
          :: parseQueryParametersGo cs (value_end + 1) fuel
    else []

/-- WebApp.cpp `WebApp::parseQueryParameters` (lines 225-255). -/
def parseQueryParameters (query : String) : List (String × String) :=
  parseQueryParametersGo query.data 0 (query.data.length + 1)

/-- One std::multimap::insert: the new entry goes in before the first
entry with a strictly greater key and after every entry with a smaller
or equal one (upper_bound), so equal keys keep insertion order. -/
def multimapInsert (m : List (String × String)) (kv : String × String) :
    List (String × String) :=
  match m with
  | [] => [kv]
  | x :: rest =>
    if decide (kv.1 < x.1) then kv :: x :: rest
    else x :: multimapInsert rest kv

/-- The std::multimap the parsed pairs are inserted into, entry by entry
in parse order. -/
def multimapParams (query : String) : List (String × String) :=
  (parseQueryParameters query).foldl multimapInsert []

/-- The info_hash collection loop of viewApiTorrents (lines 160-162):
`for (it = params.find("info_hash"); it != params.end(); it++)` walks
from the first entry whose key equals info_hash to the end of the
ordered multimap — so it also picks up every entry whose key sorts after
info_hash; when find fails it starts at end() and collects nothing. -/
def infoHashValues (query : String) : List String :=
  let params := multimapParams query
  if params.any (fun kv => kv.1 == "info_hash") then
    (params.dropWhile (fun kv => kv.1 != "info_hash")).map Prod.snd
  else []

/-- libevent request methods reaching the handler (evhttp_cmd_type);
OTHER stands for any further method evhttp can report. -/
inductive HttpMethod where
  | POST
  | DELETE
  | GET
  | OTHER
deriving DecidableEq, Repr

/-- An HTTP reply: status code plus body (WebApp::sendReply). -/
structure ApiReply where
  code : Nat
  body : String
deriving DecidableEq, Repr

/-- WebApp.cpp line 114. -/
def JSON_INVALID_METHOD : String := "\x7b\"error\": \"Invalid method\"\x7d"

/-- WebApp.cpp line 116. -/
def JSON_PARAMS_REQUIRED : String :=
  "\x7b\"error\": \"This method requires parameters.\"\x7d"

/-- WebApp.cpp line 117. -/
def JSON_INFOHASH_REQUIRED : String :=
  "\x7b\"error\": \"exactly one info_hash argument is required.\"\x7d"

/-- WebApp.cpp line 118. -/
def JSON_INFOHASH_INVALID : String :=
  "\x7b\"error\": \"info_hash length is incorrect.\"\x7d"

/-- WebApp.cpp line 121. -/
def JSON_OKAY : String := "\x7b\"result\": \"Okay\"\x7d"

/-- WebApp.cpp line 122. -/
def JSON_OKAY_DYNAMIC : String :=
  "\x7b\"result\": \"Okay\", \"note\": \"tracker is in dynamic mode.\"\x7d"

/-- WebApp.cpp `WebApp::viewApiTorrents` (lines 132-203): reject methods
other than POST and DELETE with 405, a missing query with 400, not
exactly one info_hash value with 400, a value that is not 40 chars or
not hex with 400; then run addTorrent (POST) or removeTorrent (DELETE)
and answer 200 with the dynamic-mode note when applicable. The sqlite
driver always returns success for both mutations, so the 500 branches
are not taken. The handler never reads the request source address —
`sourceIp` is a parameter of the model only to state that fact — and no
branch of the body produces a 403. -/
def viewApiTorrents (db : DB) (isDynamic : Bool) (sourceIp : Nat)
    (method : HttpMethod) (query : Option String) : ApiReply × DB :=
  if method ≠ HttpMethod.POST ∧ method ≠ HttpMethod.DELETE then
    ({ code := 405, body := JSON_INVALID_METHOD }, db)
  else
    match query with
    | none => ({ code := 400, body := JSON_PARAMS_REQUIRED }, db)
    | some q =>
      let hashes := infoHashValues q
      if hashes.length ≠ 1 then
        ({ code := 400, body := JSON_INFOHASH_REQUIRED }, db)
      else
        let info_hash := hashes.headI
        if info_hash.length ≠ 40 then
          ({ code := 400, body := JSON_INFOHASH_INVALID }, db)
        else
          match str_to_hash (info_hash.data.map Char.toNat) with
          | none => ({ code := 400, body := JSON_INFOHASH_INVALID }, db)
          | some hash =>
            let db2 := if method = HttpMethod.POST then addTorrent db hash
                       else removeTorrent db hash
            if isDynamic then
              ({ code := 200, body := JSON_OKAY_DYNAMIC }, db2)
            else
              ({ code := 200, body := JSON_OKAY }, db2)

/-! ## Observation helpers and concrete inputs used by the claim checks -/

/-- The peer record stored for an endpoint: the row of the swarm's peer
table whose (ip, port) blobs match, if any. -/
def peerLookup (db : DB) (info_hash : Bytes) (ip port : Nat) :
    Option PeerRow :=
  match db.tables.lookup (tableName info_hash) with
  | none => none
  | some rows => rows.find? fun p => p.ip == ip && p.port == port

/-- Every stats row of the store carries a zero completed counter. -/
def statsCompletedZero (db : DB) : Prop :=
  ∀ r ∈ db.stats, r.2.completed = 0

/-- Whether a handler output is exactly one scrape-response datagram with
the given transaction id and triples. -/
def answersTriples (s : List Sent) (tid : Nat)
    (ts : List (Int × Int × Int)) : Bool :=
  match s with
  | [Sent.scrapeResp t ts2 _] => t == tid && ts2 == ts
  | _ => false

/-- An all-zero info_hash (hex string 40 times 0, so the broken decoders
map its table name back to itself). -/
def zeros20 : Bytes := List.replicate 20 0

/-- A peer_id used by the concrete scenarios. -/
def onesPid : Bytes := List.replicate 20 1

/-- A second info_hash, all bytes 2. -/
def twos20 : Bytes := List.replicate 20 2

/-- Dynamic-mode configuration with the default announce interval. -/
def cfgDynamic : Config :=
  { allowRemotes := true, isDynamic := true, announceInterval := 1800 }

/-- The first-announce request of spec scenario 3: START, left = 100,
client-supplied ip 0, port 51413, sent from 10.0.0.1:51413 with the
connection id the tracker minted for that endpoint. -/
def startReq : AnnounceRequest :=
  { connection_id := genCiD 100000 167772161 51413, transaction_id := 777,
    info_hash := zeros20, peer_id := onesPid, downloaded := 0, left := 100,
    uploaded := 0, event := 2, ip_address := 0, num_want := -1,
    port := 51413 }

/-- The store right after that first announce. -/
def dbAfterStart : DB :=
  (handleAnnounce cfgDynamic DB.empty 167772161 51413 startReq 100000).2

/-- A store holding one swarm table for zeros20 with a single fresh
leecher row (left = 100, last_seen = 100000). -/
def dbOneLeecher : DB :=
  { torrents := [zeros20],
    stats := [],
    tables := [(tableName zeros20,
      [{ peer_id := onesPid, ip := 167772161, port := 51413, uploaded := 0,
         downloaded := 0, left := 100, last_seen := 100000 }])] }

/-- A store whose stats table knows twos20 with (seeders 4, completed 5,
leechers 3) and nothing else. -/
def dbKnownStats : DB :=
  { torrents := [],
    stats := [(twos20,
      { completed := 5, leechers := 3, seeders := 4, last_mod := 0 })],
    tables := [] }

/-- The 8 bytes of a connection id as they sit at the start of a packet
(little-endian, the order leRead reads back). -/
def cidBytes (cId : Nat) : Bytes :=
  (List.range 8).map fun i => (cId >>> (8 * i)) % 256

/-- A scrape packet from 10.0.0.1:51413 with transaction id 7 and the
given hashes, carrying the connection id minted for that endpoint. -/
def scrapePacket (hashes : List Bytes) : Bytes :=
  cidBytes (genCiD 100000 167772161 51413) ++ [0, 0, 0, 2] ++ [7, 0, 0, 0]
    ++ hashes.flatten

/-- A query string with one info_hash parameter of 40 hex characters. -/
def hexQuery : String := "info_hash=" ++ String.mk (List.replicate 40 'a')

/-- An announce for the zeros20 swarm carrying the explicit
EVENT_COMPLETE code (event = 1) and left = 0. -/
def completeReq : AnnounceRequest :=
  { startReq with event := 1, left := 0 }

/-- A hash whose first byte is 0xAB — its high nibble is non-zero and
both its hex digits are letters, so both decoders mangle it. -/
def hAB : Bytes := 171 :: List.replicate 19 0

/-- An announce like startReq whose connection id 0 does not verify for
its endpoint. -/
def deadReq : AnnounceRequest := { startReq with connection_id := 0 }

/-! ## Helper lemmas -/

/-- Updating one table in place commutes with looking that table up. -/
theorem lookup_setTableRows (tables : List (Bytes × List PeerRow)) (k : Bytes)
    (f : List PeerRow → List PeerRow) :
    (setTableRows tables k f).lookup k = (tables.lookup k).map f := by
  induction tables with
  | nil => rfl
  | cons t ts ih =>
    by_cases h : t.1 = k
    · have hbeq : (t.1 == k) = true := by simpa using h
      have hbeq2 : (k == t.1) = true := by simpa using h.symm
      simp only [setTableRows]
      rw [if_pos hbeq]
      simp [List.lookup, hbeq2]
    · have hbeq : (t.1 == k) = false := by simpa using h
      have hbeq2 : (k == t.1) = false := by simpa using fun e => h e.symm
      simp only [setTableRows]
      rw [if_neg (by simp [hbeq])]
      simp [List.lookup, hbeq2, ih]

/-- A key listed among an association list's keys has a lookup value. -/
theorem lookup_mem_keys {l : List (Bytes × List PeerRow)} {k : Bytes}
    (h : (l.map Prod.fst).contains k = true) : ∃ v, l.lookup k = some v := by
  induction l with
  | nil => simp at h
  | cons t ts ih =>
    by_cases he : k = t.1
    · have hbeq2 : (k == t.1) = true := by simpa using he
      exact ⟨t.2, by simp [List.lookup, hbeq2]⟩
    · have hbeq2 : (k == t.1) = false := by simpa using he
      rw [List.map_cons, List.contains_cons] at h
      have h2 : (ts.map Prod.fst).contains k = true := by
        simpa [hbeq2] using h
      obtain ⟨v, hv⟩ := ih h2
      exact ⟨v, by simp [List.lookup, hbeq2, hv]⟩

/-- Appending a binding for a fresh key makes it the lookup result. -/
theorem lookup_append_new {l : List (Bytes × List PeerRow)} {k : Bytes}
    {v : List PeerRow}
    (h : (l.map Prod.fst).contains k = false) :
    (l ++ [(k, v)]).lookup k = some v := by
  induction l with
  | nil => simp [List.lookup]
  | cons t ts ih =>
    rw [List.map_cons, List.contains_cons] at h
    have h1 : (k == t.1) = false := by
      rcases hb : (k == t.1) with _ | _
      · rfl
      · rw [hb] at h; simp at h
    have h2 : (ts.map Prod.fst).contains k = false := by
      rcases hb : (ts.map Prod.fst).contains k with _ | _
      · rfl
      · rw [hb] at h; simp at h
    simp [List.lookup, h1, ih h2]

/-- After addTorrent the swarm's peer table exists. -/
theorem addTorrent_table_exists (db : DB) (h : Bytes) :
    ∃ rows, (addTorrent db h).tables.lookup (tableName h) = some rows := by
  unfold addTorrent
  by_cases hc : (db.tables.map Prod.fst).contains (tableName h) = true
  · simp only [hc, if_pos]
    exact lookup_mem_keys hc
  · have hc2 : (db.tables.map Prod.fst).contains (tableName h) = false := by
      rcases hb : (db.tables.map Prod.fst).contains (tableName h) with _ | _
      · rfl
      · exact absurd hb hc
    simp only [hc2]
    rw [if_neg (by simp)]
    exact ⟨[], lookup_append_new hc2⟩

/-- In a row list purged of an endpoint and extended with a row for it,
that row is what a search for the endpoint finds. -/
theorem find?_upsert (rows : List PeerRow) (row : PeerRow) (ip port : Nat)
    (hip : row.ip = ip) (hport : row.port = port) :
    ((rows.filter fun (p : PeerRow) => !(p.ip == ip && p.port == port))
        ++ [row]).find? (fun p => p.ip == ip && p.port == port) = some row := by
  have h1 : (rows.filter fun (p : PeerRow) =>
      !(p.ip == ip && p.port == port)).find?
        (fun p => p.ip == ip && p.port == port) = none := by
    rw [List.find?_eq_none]
    intro x hx
    have h2 := (List.mem_filter.mp hx).2
    simp only [Bool.not_eq_eq_eq_not, Bool.not_true] at h2
    simp [h2]
  rw [List.find?_append, h1]
  simp [List.find?, hip, hport]

/-- REPLACE with a zero completed column preserves all-zero completed. -/
theorem replaceRow_completed_zero {stats : List (Bytes × StatsRow)}
    {k : Bytes} {v : StatsRow} (hv : v.completed = 0)
    (h : ∀ r ∈ stats, r.2.completed = 0) :
    ∀ r ∈ replaceRow stats k v, r.2.completed = 0 := by
  intro r hr
  rcases List.mem_append.mp hr with hr | hr
  · exact h r (List.mem_filter.mp hr).1
  · have : r = (k, v) := by simpa using hr
    rw [this]
    exact hv

/-- updatePeer keeps every completed counter at zero: its REPLACE INTO
stats names only info_hash and last_mod, so completed resets to 0. -/
theorem statsCompletedZero_updatePeer (db : DB) (pid h : Bytes)
    (ip port : Nat) (d l u : Int) (ev : TrackerEvents) (now : Int)
    (hz : statsCompletedZero db) :
    statsCompletedZero (updatePeer db pid h ip port d l u ev now) := by
  have hstats : (updatePeer db pid h ip port d l u ev now).stats =
      replaceRow (addTorrent db h).stats ((hash_to_str h).take 20)
        { last_mod := now } := rfl
  unfold statsCompletedZero
  rw [hstats]
  exact replaceRow_completed_zero rfl (fun r hr => hz r hr)

/-- The cleanup fold keeps every completed counter at zero: its REPLACE
INTO stats names info_hash, seeders, leechers and last_mod only. -/
theorem foldl_cleanupStep_zero (now : Int) :
    ∀ (ts : List (Bytes × List PeerRow)) (acc : DB),
      statsCompletedZero acc →
      statsCompletedZero (ts.foldl (cleanupStep now) acc) := by
  intro ts
  induction ts with
  | nil => intro acc h; exact h
  | cons t ts ih =>
    intro acc h
    apply ih
    unfold cleanupStep
    split
    · exact replaceRow_completed_zero rfl h
    · exact h

/-- When every scraped hash has a stats row, the loop yields the triples
in request order. -/
theorem scrapeTriples_all_known (db : DB) :
    ∀ (hs : List Bytes), (∀ h ∈ hs, (getTorrentInfo db h).1 = true) →
      scrapeTriples db hs = some (hs.map fun h =>
        ((getTorrentInfo db h).2.seeders, (getTorrentInfo db h).2.completed,
          (getTorrentInfo db h).2.leechers)) := by
  intro hs
  induction hs with
  | nil => intro _; rfl
  | cons a l ih =>
    intro hall
    have ha := hall a (List.mem_cons_self a l)
    have hl := ih fun x hx => hall x (List.mem_cons_of_mem a hx)
    unfold scrapeTriples at hl ⊢
    rw [List.mapM_cons, hl]
    simp [ha]

/-! ## Theorems -/

/-- C1 (counterexample). A first START announce with left = 100 on a
previously unknown swarm in dynamic mode, with a valid connection id, is
answered with seeders = 0 and leechers = 0 — not leechers = 1 as the
claim states — because handleAnnounce reads the stats row before calling
updatePeer, and no row exists yet. -/
theorem first_announce_answers_zero_leechers :
    (handleAnnounce cfgDynamic DB.empty 167772161 51413 startReq 100000).1 =
      [Sent.announceResp 777 1800 0 0 [] 20] ∧
    (handleAnnounce cfgDynamic DB.empty 167772161 51413 startReq 100000).1 ≠
      [Sent.announceResp 777 1800 1 0 [] 20] :=
  ⟨by decide, by decide⟩

/-- C2 (counterexample). A call to updatePeer with event = EVENT_STOP on
a store holding the stopping peer leaves the peer record in the swarm
table (upserted with a fresh last_seen); the record is not removed as
the claim states. -/
theorem stop_event_leaves_peer_present :
    peerLookup (updatePeer dbOneLeecher onesPid zeros20 167772161 51413 0
        100 0 TrackerEvents.EVENT_STOP 100060) zeros20 167772161 51413 =
      some { peer_id := onesPid, ip := 167772161, port := 51413,
             uploaded := 0, downloaded := 0, left := 100,
             last_seen := 100060 } ∧
    peerLookup (updatePeer dbOneLeecher onesPid zeros20 167772161 51413 0
        100 0 TrackerEvents.EVENT_STOP 100060) zeros20 167772161 51413 ≠
      none :=
  ⟨by decide, by decide⟩

/-- C3 (counterexample). The announce handler processes an explicit
EVENT_COMPLETE announce, yet afterwards every stats row of the store
still carries completed = 0 (and the store does have stats rows): no
completed counter was incremented. -/
theorem complete_event_never_increments :
    ((handleAnnounce cfgDynamic dbOneLeecher 167772161 51413 completeReq
        100000).2).stats.all (fun r => r.2.completed == 0) = true ∧
    ((handleAnnounce cfgDynamic dbOneLeecher 167772161 51413 completeReq
        100000).2).stats ≠ [] :=
  ⟨by decide, by decide⟩

/-- C4. The token minted for ip 1.2.3.4 (16909060), port 6881 verifies
against the distinct endpoint ip 5.6.7.8 (84281096), same port, because
the sign-extended `|= (~port)` sets the whole upper 48 bits of the id:
the minted value is exactly 2^64 - 1 - port, bound neither to the source
IP nor to the time bucket. -/
theorem connection_id_depends_only_on_port :
    verifyConnectionId (genCiD 100000 16909060 6881) 84281096 6881 100000 =
      true ∧
    genCiD 100000 16909060 6881 = 2 ^ 64 - 1 - 6881 :=
  ⟨by decide, by decide⟩

/-- C6 (counterexample). A scrape over [twos20, zeros20] where the store
knows twos20 (stats 4/5/3) but not zeros20 is answered with a single
error datagram: the unknown hash does not yield a (0,0,0) triple, and
the known hash goes unanswered too. -/
theorem scrape_unknown_hash_aborts_whole_scrape :
    handleScrape dbKnownStats 167772161 51413
        (scrapePacket [twos20, zeros20]) 100000 =
      [Sent.errorResp 7 "Scrape Failed: couldn't retrieve torrent data"] ∧
    answersTriples
        (handleScrape dbKnownStats 167772161 51413
          (scrapePacket [twos20, zeros20]) 100000)
        7 [(4, 5, 3), (0, 0, 0)] = false :=
  ⟨by decide, by decide⟩

/-- C7. A well-formed scrape over k = 1 known info-hash is answered with
a datagram of 1024 bytes — handleScrape hands sizeof(buffer) to sendto —
and 1024 is not 8 + 12·1 = 20 as the claim states. -/
theorem scrape_response_is_whole_buffer :
    handleScrape dbKnownStats 167772161 51413 (scrapePacket [twos20])
        100000 =
      [Sent.scrapeResp 7 [(4, 5, 3)] 1024] ∧
    (1024 : Nat) ≠ 8 + 12 * 1 :=
  ⟨by decide, by decide⟩

/-- C8 (counterexample). cleanup over a swarm with one fresh leecher
(left = 100 > 0) stores seeders = 1, leechers = 0 for it — the opposite
of the claimed per-left split — because `left==0` compares a BLOB with
an integer (always false), leaving one group whose representative blob
converts to the integer 0. -/
theorem cleanup_counts_leecher_as_seeder :
    ((cleanup dbOneLeecher 100000).stats).lookup zeros20 =
      some { completed := 0, leechers := 0, seeders := 1,
             last_mod := 100000 } ∧
    ((cleanup dbOneLeecher 100000).stats).lookup zeros20 ≠
      some { completed := 0, leechers := 1, seeders := 0,
             last_mod := 100000 } :=
  ⟨by decide, by decide⟩

/-- C9 (counterexample). A POST of a valid info_hash from the
non-loopback source 8.8.8.8 (134744072) is answered 200, not 403, and
the store is mutated: viewApiTorrents has no source-address check. -/
theorem nonloopback_post_honored :
    (viewApiTorrents DB.empty true 134744072 HttpMethod.POST
        (some hexQuery)).1.code = 200 ∧
    (viewApiTorrents DB.empty true 134744072 HttpMethod.POST
        (some hexQuery)).1.code ≠ 403 ∧
    (viewApiTorrents DB.empty true 134744072 HttpMethod.POST
        (some hexQuery)).2 ≠ DB.empty :=
  ⟨by decide, by decide, by decide⟩

/-- C10. For the 20-byte hash hAB (first byte 0xAB), str_to_hash applied
to hash_to_str returns the hash with the byte replaced by 0x0B (the
`<< 8` keeps only the low nibble after the uint8 store), and
_hash_to_bin applied to the same hex string returns 0x32 for it (the
letter branch of the decoder is wrong and the high nibble is
overwritten): neither codec round-trips. -/
theorem hex_codecs_do_not_invert :
    str_to_hash (hash_to_str hAB) = some (11 :: List.replicate 19 0) ∧
    (11 :: List.replicate 19 0 : Bytes) ≠ hAB ∧
    hash_to_bin (hash_to_str hAB) = 50 :: List.replicate 19 0 ∧
    (50 :: List.replicate 19 0 : Bytes) ≠ hAB :=
  ⟨by decide, by decide, by decide, by decide⟩

/-- C1 (amended). For every announce that passes connection-id
verification and admission, the seeders and leechers fields of the
response equal the aggregates getTorrentInfo reads from the store BEFORE
the announce's own updatePeer runs (the handler sends first and updates
the database afterwards). -/
theorem announce_reads_stats_before_update :
    ∀ (cfg : Config) (db : DB) (rip rport : Nat) (req : AnnounceRequest)
      (now : Int),
      verifyConnectionId req.connection_id rip rport now = true →
      (cfg.allowRemotes = true ∨ req.ip_address = 0) →
      isTorrentAllowed db cfg.isDynamic req.info_hash = true →
      ∃ peers n,
        (handleAnnounce cfg db rip rport req now).1 =
          [Sent.announceResp req.transaction_id cfg.announceInterval
            (getTorrentInfo db req.info_hash).2.leechers
            (getTorrentInfo db req.info_hash).2.seeders peers n] := by
  intro cfg db rip rport req now h1 h2 h3
  have hadm : ¬ (cfg.allowRemotes = false ∧ req.ip_address ≠ 0) := by
    rcases h2 with h2 | h2 <;> simp [h2]
  simp only [handleAnnounce, h1, h3]
  rw [if_neg (by simp), if_neg hadm, if_neg (by simp)]
  exact ⟨_, _, rfl⟩

/-- C1 (witness). The amended theorem applied to the concrete scenario-3
announce: hypotheses hold and the response reads the empty pre-update
stats. -/
theorem announce_reads_stats_before_update_witness :
    verifyConnectionId startReq.connection_id 167772161 51413 100000 = true ∧
    (cfgDynamic.allowRemotes = true ∨ startReq.ip_address = 0) ∧
    isTorrentAllowed DB.empty cfgDynamic.isDynamic startReq.info_hash =
      true ∧
    ∃ peers n,
      (handleAnnounce cfgDynamic DB.empty 167772161 51413 startReq
          100000).1 =
        [Sent.announceResp startReq.transaction_id
          cfgDynamic.announceInterval
          (getTorrentInfo DB.empty startReq.info_hash).2.leechers
          (getTorrentInfo DB.empty startReq.info_hash).2.seeders peers n] :=
  ⟨by decide, by decide, by decide,
    announce_reads_stats_before_update cfgDynamic DB.empty 167772161 51413
      startReq 100000 (by decide) (by decide) (by decide)⟩

/-- C2 (amended). For every call to updatePeer — the STOP event
included, since the body never reads the event — the peer record keyed
by (ip, port) is upserted, so the stopping peer is still in the store
afterwards with a fresh last_seen; and removePeer, whose bind indices
are off by one, never changes the store (nothing in the announce path
calls it anyway). -/
theorem update_peer_upserts_every_event :
    ∀ (db : DB) (pid h : Bytes) (ip port : Nat) (d l u : Int)
      (ev : TrackerEvents) (now : Int),
      peerLookup (updatePeer db pid h ip port d l u ev now) h ip port =
        some { peer_id := pid, ip := ip, port := port, uploaded := u,
               downloaded := d, left := l, last_seen := now } ∧
      removePeer db pid h ip port = db := by
  intro db pid h ip port d l u ev now
  refine ⟨?_, rfl⟩
  obtain ⟨rows, hrows⟩ := addTorrent_table_exists db h
  have htab : (updatePeer db pid h ip port d l u ev now).tables =
      setTableRows (addTorrent db h).tables (tableName h)
        (fun rows => rows.filter
            (fun (p : PeerRow) => !(p.ip == ip && p.port == port)) ++
          [{ peer_id := pid, ip := ip, port := port, uploaded := u,
             downloaded := d, left := l, last_seen := now }]) := rfl
  unfold peerLookup
  rw [htab, lookup_setTableRows, hrows]
  exact find?_upsert rows _ ip port rfl rfl

/-- C3 (amended). The completed counter is never incremented by anything:
both updatePeer (whatever the event, EVENT_COMPLETE included) and cleanup
REPLACE the stats row without naming completed, so it stays at the
column DEFAULT 0 in every store the code can produce — trivially
non-decreasing, but never raised on EVENT_COMPLETE. -/
theorem completed_never_incremented :
    ∀ (db : DB) (pid h : Bytes) (ip port : Nat) (d l u : Int)
      (ev : TrackerEvents) (now now2 : Int),
      statsCompletedZero db →
      statsCompletedZero (updatePeer db pid h ip port d l u ev now) ∧
      statsCompletedZero (cleanup db now2) := by
  intro db pid h ip port d l u ev now now2 hz
  exact ⟨statsCompletedZero_updatePeer db pid h ip port d l u ev now hz,
    foldl_cleanupStep_zero now2 db.tables db hz⟩

/-- C3 (witness). The amended theorem applied to the empty store and an
EVENT_COMPLETE update. -/
theorem completed_never_incremented_witness :
    statsCompletedZero DB.empty ∧
    (statsCompletedZero (updatePeer DB.empty onesPid zeros20 167772161
        51413 0 100 0 TrackerEvents.EVENT_COMPLETE 100000) ∧
      statsCompletedZero (cleanup DB.empty 100000)) :=
  ⟨fun r hr => absurd hr (List.not_mem_nil r),
    completed_never_incremented DB.empty onesPid zeros20 167772161 51413
      0 100 0 TrackerEvents.EVENT_COMPLETE 100000 100000
      (fun r hr => absurd hr (List.not_mem_nil r))⟩

/-- C5. Whenever connection-id verification fails, both handleAnnounce
and (for a length-valid packet) handleScrape return without sending any
datagram back — no error response, nothing. -/
theorem verify_failure_drops_silently :
    ∀ (cfg : Config) (db : DB) (rip rport : Nat) (req : AnnounceRequest)
      (data : Bytes) (now : Int),
      verifyConnectionId req.connection_id rip rport now = false →
      verifyConnectionId (leRead (data.take 8)) rip rport now = false →
      0 ≤ (data.length : Int) - 16 →
      ((data.length : Int) - 16).emod 20 = 0 →
      handleAnnounce cfg db rip rport req now = ([], db) ∧
      handleScrape db rip rport data now = [] := by
  intro cfg db rip rport req data now h1 h2 h3 h4
  constructor
  · unfold handleAnnounce
    rw [if_pos h1]
  · unfold handleScrape
    rw [if_neg (by
      intro hc
      rcases hc with hlt | hne
      · exact absurd h3 (not_le.mpr hlt)
      · exact hne h4)]
    rw [if_pos h2]

/-- C5 (witness). The theorem applied to an announce and a scrape packet
carrying connection id 0, which does not verify for 10.0.0.1:51413. -/
theorem verify_failure_drops_silently_witness :
    verifyConnectionId deadReq.connection_id 167772161 51413 100000 =
      false ∧
    verifyConnectionId (leRead ((List.replicate 16 0 : Bytes).take 8))
      167772161 51413 100000 = false ∧
    0 ≤ ((List.replicate 16 0 : Bytes).length : Int) - 16 ∧
    (((List.replicate 16 0 : Bytes).length : Int) - 16).emod 20 = 0 ∧
    (handleAnnounce cfgDynamic DB.empty 167772161 51413 deadReq 100000 =
        ([], DB.empty) ∧
      handleScrape DB.empty 167772161 51413 (List.replicate 16 0)
        100000 = []) :=
  ⟨by decide, by decide, by decide, by decide,
    verify_failure_drops_silently cfgDynamic DB.empty 167772161 51413
      deadReq (List.replicate 16 0) 100000 (by decide) (by decide)
      (by decide) (by decide)⟩

/-- C6 (amended). A well-formed, verified scrape is answered with one
(seeders, completed, leechers) triple per requested hash in request
order only when every requested hash has a stats row; a hash without one
makes the handler send an error response instead, failing the whole
scrape (see the counterexample). -/
theorem scrape_all_known_answers_triples :
    ∀ (db : DB) (rip rport : Nat) (data : Bytes) (now : Int),
      0 ≤ (data.length : Int) - 16 →
      ((data.length : Int) - 16).emod 20 = 0 →
      verifyConnectionId (leRead (data.take 8)) rip rport now = true →
      (∀ h ∈ scrapeHashes data (((data.length : Int) - 16).tdiv 20).toNat,
        (getTorrentInfo db h).1 = true) →
      handleScrape db rip rport data now =
        [Sent.scrapeResp (leRead ((data.drop 12).take 4))
          ((scrapeHashes data
              (((data.length : Int) - 16).tdiv 20).toNat).map
            fun h => ((getTorrentInfo db h).2.seeders,
                      (getTorrentInfo db h).2.completed,
                      (getTorrentInfo db h).2.leechers)) 1024] := by
  intro db rip rport data now h3 h4 h2 hall
  unfold handleScrape
  rw [if_neg (by
    intro hc
    rcases hc with hlt | hne
    · exact absurd h3 (not_le.mpr hlt)
    · exact hne h4)]
  rw [if_neg (by simp [h2])]
  simp only [scrapeTriples_all_known db _ hall]

/-- C6 (witness). The amended theorem applied to a one-hash scrape of a
store that knows the hash. -/
theorem scrape_all_known_answers_triples_witness :
    0 ≤ ((scrapePacket [twos20]).length : Int) - 16 ∧
    (((scrapePacket [twos20]).length : Int) - 16).emod 20 = 0 ∧
    verifyConnectionId (leRead ((scrapePacket [twos20]).take 8)) 167772161
      51413 100000 = true ∧
    (∀ h ∈ scrapeHashes (scrapePacket [twos20])
        ((((scrapePacket [twos20]).length : Int) - 16).tdiv 20).toNat,
      (getTorrentInfo dbKnownStats h).1 = true) ∧
    handleScrape dbKnownStats 167772161 51413 (scrapePacket [twos20])
        100000 =
      [Sent.scrapeResp (leRead (((scrapePacket [twos20]).drop 12).take 4))
        ((scrapeHashes (scrapePacket [twos20])
            ((((scrapePacket [twos20]).length : Int) - 16).tdiv 20).toNat).map
          fun h => ((getTorrentInfo dbKnownStats h).2.seeders,
                    (getTorrentInfo dbKnownStats h).2.completed,
                    (getTorrentInfo dbKnownStats h).2.leechers)) 1024] :=
  ⟨by decide, by decide, by decide, by decide,
    scrape_all_known_answers_triples dbKnownStats 167772161 51413
      (scrapePacket [twos20]) 100000 (by decide) (by decide) (by decide)
      (by decide)⟩

/-- C8 (amended). After cleanup, a surviving swarm's stored aggregates
put the whole survivor count into exactly one of seeders or leechers and
leave the other at 0 — the SQL groups every row together because
`left==0` compares a BLOB with an integer — instead of the claimed
per-peer left == 0 / left > 0 split. -/
theorem cleanup_lumps_survivors :
    ∀ (now : Int) (rows : List PeerRow),
      (cleanupTable now rows).2.1 + (cleanupTable now rows).2.2 =
        ((cleanupTable now rows).1.length : Int) ∧
      ((cleanupTable now rows).2.1 = 0 ∨ (cleanupTable now rows).2.2 = 0) := by
  intro now rows
  cases h : (rows.filter fun p => !decide (p.last_seen < now - 7200)).getLast? with
  | none =>
    have he : (rows.filter fun p => !decide (p.last_seen < now - 7200)) = [] := by
      simpa [List.getLast?_eq_none_iff] using h
    simp [cleanupTable, h, he]
  | some rep =>
    simp only [cleanupTable, h]
    cases hb : column_int_blob (left64le rep.left) == 0 <;> simp [hb]

/-- C9 (amended). viewApiTorrents never reads the request source
address: requests from any two sources — loopback or not — get the
identical reply and the identical store effect, and no branch returns
403 (the only isolation is the configured bind address). -/
theorem api_ignores_source_address :
    ∀ (db : DB) (dyn : Bool) (s1 s2 : Nat) (m : HttpMethod)
      (q : Option String),
      viewApiTorrents db dyn s1 m q = viewApiTorrents db dyn s2 m q := by
  intro db dyn s1 s2 m q
  rfl

end UDPT
